import Mathlib

set_option maxHeartbeats 1000000

/-!
A shallow embedding of the X.509 extension DER encoder of
`src/rust/src/x509/extensions.rs` (the `cryptography` crate's extension
serializer).  The per-extension encoders are translated function by function;
Python host objects become typed views (an `Option` field mirrors an
attribute extracted with `extract::<Option<_>>`, a truthiness test on a host
value becomes an explicit truthiness function on the view).  Collaborators
that live outside this file's source (general-name encoding, reason-flags
encoding, big-integer conversion, the OID registry) are modelled from the
specification's description of their interface; each such definition carries
a doc comment saying so.  The generic ASN.1 writer is modelled by a structured
value type `Asn1Value` holding exactly the data handed to `asn1::write_single`;
byte-level tag/length/value framing is the writer collaborator's concern.
-/

namespace X509Ext

/-- Modelled from the spec: general names are encoded by a separate naming
subsystem and are opaque to this module; a general name is an opaque token. -/
abbrev GeneralName := Nat

/-- Modelled from the spec: a relative-distinguished-name entry is encoded by
the naming subsystem; it is an opaque token here. -/
abbrev NameEntry := Nat

/-- Modelled from the spec: a CRL reason value handed to the reason-flags
collaborator; opaque token. -/
abbrev Reason := Nat

/-- Modelled from the spec: an AccessDescription encoded by
`x509::common::encode_access_descriptions`; opaque token. -/
abbrev AccessDescription := Nat

/-- Modelled from the spec: the collaborator `x509::common::encode_general_name`
returns the DER structure for one general name; on opaque tokens it is the
identity. -/
def encode_general_name (gn : GeneralName) : GeneralName := gn

/-- Modelled from the spec: the collaborator `x509::common::encode_name_entry`;
identity on opaque tokens. -/
def encode_name_entry (ne : NameEntry) : NameEntry := ne

/-- Modelled from the spec: the collaborator
`certificate::encode_distribution_point_reasons` builds the reason-flags bit
string; on opaque tokens it is the identity on the reason list. -/
def encode_distribution_point_reasons (rs : List Reason) : List Reason := rs

/-- Modelled from the spec: `py_uint_to_big_endian_bytes` converts a
non-negative arbitrary-precision integer to its minimal big-endian byte
representation (the zero value yields one zero byte). -/
def py_uint_to_big_endian_bytes (n : Nat) : List Nat :=
  if _h : n < 256 then [n]
  else py_uint_to_big_endian_bytes (n / 256) ++ [n % 256]
termination_by n
decreasing_by exact Nat.div_lt_self (by omega) (by omega)

/-- Truthiness of a Python value holding an optional list (`None` is falsy,
a list is truthy exactly when non-empty), as tested by `is_truthy`. -/
def truthy_list {α : Type} (v : Option (List α)) : Bool :=
  match v with
  | none => false
  | some l => !l.isEmpty

/-- Host text (a Python `str`), modelled as its character list so that the
per-character IA5 check is directly computable. -/
abbrev PyStr := List Char

/-- Truthiness of a Python value holding an optional plain object (`None` is
falsy, any object is truthy). -/
def truthy_obj {α : Type} (v : Option α) : Bool :=
  v.isSome

/-- The nine KeyUsage flags of the host `x509.KeyUsage` object, as read by
`encode_key_usage`. -/
structure KeyUsage where
  digital_signature : Bool
  content_commitment : Bool
  key_encipherment : Bool
  data_encipherment : Bool
  key_agreement : Bool
  key_cert_sign : Bool
  crl_sign : Bool
  encipher_only : Bool
  decipher_only : Bool
deriving DecidableEq

/-- Modelled from the spec: `certificate::set_bit` sets bit `n` of a 2-byte
mask with MSB-first bit ordering within each byte (bit 0 is the most
significant bit of the first byte, bit 8 the most significant bit of the
second byte), when `flag` holds. -/
def set_bit (bs : Nat × Nat) (n : Nat) (flag : Bool) : Nat × Nat :=
  if flag then
    if n < 8 then (bs.1 ||| 2 ^ (7 - n), bs.2)
    else (bs.1, bs.2 ||| 2 ^ (7 - (n - 8)))
  else bs

/-- The 2-byte mask `bs` built by `encode_key_usage` before trimming: bits
0..6 from the seven always-present flags, bits 7 and 8 from
`encipher_only`/`decipher_only` only when `key_agreement` is truthy. -/
def key_usage_mask (ku : KeyUsage) : Nat × Nat :=
  let bs := set_bit (0, 0) 0 ku.digital_signature
  let bs := set_bit bs 1 ku.content_commitment
  let bs := set_bit bs 2 ku.key_encipherment
  let bs := set_bit bs 3 ku.data_encipherment
  let bs := set_bit bs 4 ku.key_agreement
  let bs := set_bit bs 5 ku.key_cert_sign
  let bs := set_bit bs 6 ku.crl_sign
  if ku.key_agreement then
    let bs := set_bit bs 7 ku.encipher_only
    set_bit bs 8 ku.decipher_only
  else bs

/-- Recursion of `trailing_zeros_u8`, counting low zero bits with a fuel
bound of the byte's width. -/
def trailing_zeros_go : Nat → Nat → Nat
  | 0, _ => 0
  | fuel + 1, b => if b % 2 = 1 then 0 else 1 + trailing_zeros_go fuel (b / 2)

/-- Trailing-zero count of an 8-bit value, as `u8::trailing_zeros` computes it
(the zero byte has 8 trailing zeros). -/
def trailing_zeros_u8 (b : Nat) : Nat :=
  trailing_zeros_go 8 b

/-- The body of `encode_key_usage` after the mask is built: DER-trim the
2-byte mask into the BIT STRING content bytes and the unused-bits count
handed to `asn1::BitString::new`. -/
def encode_key_usage (ku : KeyUsage) : List Nat × Nat :=
  let bs := key_usage_mask ku
  if bs.2 = 0 then
    if bs.1 = 0 then ([], 0)
    else ([bs.1], trailing_zeros_u8 bs.1)
  else ([bs.1, bs.2], trailing_zeros_u8 bs.2)

/-- The nine bit positions of the KeyUsage BIT STRING as the mask records
them: positions 0..6 are the always-present flags, positions 7 and 8 carry
`encipher_only`/`decipher_only` only under `key_agreement`. -/
def effective_bits (ku : KeyUsage) : List Bool :=
  [ku.digital_signature, ku.content_commitment, ku.key_encipherment,
   ku.data_encipherment, ku.key_agreement, ku.key_cert_sign, ku.crl_sign,
   ku.key_agreement && ku.encipher_only, ku.key_agreement && ku.decipher_only]

/-- Index of the last set bit of a bit list, when one is set. -/
def last_set_bit (l : List Bool) : Option Nat :=
  ((List.range l.length).filter (fun i => l.getD i false)).getLast?

/-- The DistributionPointName CHOICE of RFC 5280 as
`extensions::DistributionPointName` represents it. -/
inductive DistributionPointName where
  | FullName (gns : List GeneralName)
  | NameRelativeToCRLIssuer (entries : List NameEntry)
deriving DecidableEq

/-- The `extensions::DistributionPoint` record handed to the ASN.1 writer. -/
structure DistributionPoint where
  crl_issuer : Option (List GeneralName)
  distribution_point : Option DistributionPointName
  reasons : Option (List Reason)
deriving DecidableEq

/-- The host view extracted by `encode_distribution_points` for one
distribution point: each field is `extract::<Option<_>>`-ed, so `none`
stands exactly for the Python value `None`. -/
structure PyDistributionPoint where
  crl_issuer : Option (List GeneralName)
  full_name : Option (List GeneralName)
  relative_name : Option (List NameEntry)
  reasons : Option (List Reason)
deriving DecidableEq

/-- The loop body of `encode_distribution_points`: builds one
`DistributionPoint` from the extracted view.  `full_name` is checked first;
`relative_name` is consulted only when `full_name` is `None`; `crl_issuer`
and `reasons` are encoded whenever they are not `None`. -/
def encode_distribution_point (pdp : PyDistributionPoint) : DistributionPoint :=
  let crl_issuer :=
    match pdp.crl_issuer with
    | some gns => some (gns.map encode_general_name)
    | none => none
  let distribution_point :=
    match pdp.full_name with
    | some gns => some (DistributionPointName.FullName (gns.map encode_general_name))
    | none =>
      match pdp.relative_name with
      | some entries =>
        some (DistributionPointName.NameRelativeToCRLIssuer (entries.map encode_name_entry))
      | none => none
  let reasons :=
    match pdp.reasons with
    | some rs => some (encode_distribution_point_reasons rs)
    | none => none
  { crl_issuer := crl_issuer, distribution_point := distribution_point,
    reasons := reasons }

/-- The `encode_distribution_points` loop over the iterable of distribution
points, producing the SEQUENCE OF DistributionPoint written by the caller. -/
def encode_distribution_points (pdps : List PyDistributionPoint) :
    List DistributionPoint :=
  pdps.map encode_distribution_point

/-- The `crl::IssuingDistributionPoint` record handed to the ASN.1 writer. -/
structure IssuingDistributionPoint where
  distribution_point : Option DistributionPointName
  indirect_crl : Bool
  only_contains_attribute_certs : Bool
  only_contains_ca_certs : Bool
  only_contains_user_certs : Bool
  only_some_reasons : Option (List Reason)
deriving DecidableEq

/-- The host view read attribute by attribute by
`encode_issuing_distribution_point`; optional attributes hold `None` or a
list, and the encoder tests them with `is_truthy`. -/
structure PyIssuingDistributionPoint where
  only_some_reasons : Option (List Reason)
  full_name : Option (List GeneralName)
  relative_name : Option (List NameEntry)
  indirect_crl : Bool
  only_contains_attribute_certs : Bool
  only_contains_ca_certs : Bool
  only_contains_user_certs : Bool
deriving DecidableEq

/-- The body of `encode_issuing_distribution_point`: `only_some_reasons`,
`full_name` and `relative_name` are each tested with `is_truthy` (a
present-but-empty list counts as absent), `full_name` first; the four scope
booleans are copied through verbatim. -/
def encode_issuing_distribution_point (ext : PyIssuingDistributionPoint) :
    IssuingDistributionPoint :=
  let only_some_reasons :=
    if truthy_list ext.only_some_reasons then
      some (encode_distribution_point_reasons (ext.only_some_reasons.getD []))
    else none
  let distribution_point :=
    if truthy_list ext.full_name then
      some (DistributionPointName.FullName
        ((ext.full_name.getD []).map encode_general_name))
    else if truthy_list ext.relative_name then
      some (DistributionPointName.NameRelativeToCRLIssuer
        ((ext.relative_name.getD []).map encode_name_entry))
    else none
  { distribution_point := distribution_point,
    indirect_crl := ext.indirect_crl,
    only_contains_attribute_certs := ext.only_contains_attribute_certs,
    only_contains_ca_certs := ext.only_contains_ca_certs,
    only_contains_user_certs := ext.only_contains_user_certs,
    only_some_reasons := only_some_reasons }

/-- The `extensions::GeneralSubtree` record: base name plus the RFC 5280
minimum/maximum fields. -/
structure GeneralSubtree where
  base : GeneralName
  minimum : Nat
  maximum : Option Nat
deriving DecidableEq

/-- The body of `encode_general_subtrees`: `None` maps to an absent field
(`is_none` is tested, not truthiness), and every name of the list is wrapped
with `minimum := 0` and `maximum := none`. -/
def encode_general_subtrees (subtrees : Option (List GeneralName)) :
    Option (List GeneralSubtree) :=
  match subtrees with
  | none => none
  | some names =>
    some (names.map (fun name =>
      { base := encode_general_name name, minimum := 0, maximum := none }))

/-- Modelled from the spec: the OID registry (`oid` crate) is outside this
module; an object identifier is an opaque comparable token.  One constructor
stands for each extension OID named by the dispatcher's fixed table, and
`unregistered` covers every other object identifier (carrying its dotted
arcs, e.g. the certificate-policy qualifier OIDs). -/
inductive Oid where
  | basic_constraints
  | subject_key_identifier
  | key_usage
  | authority_information_access
  | subject_information_access
  | extended_key_usage
  | acceptable_responses
  | certificate_policies
  | policy_constraints
  | name_constraints
  | inhibit_any_policy
  | issuer_alternative_name
  | subject_alternative_name
  | authority_key_identifier
  | freshest_crl
  | crl_distribution_points
  | ocsp_no_check
  | tls_feature
  | precert_poison
  | precert_signed_certificate_timestamps
  | signed_certificate_timestamps
  | crl_reason
  | certificate_issuer
  | invalidity_date
  | crl_number
  | delta_crl_indicator
  | issuing_distribution_point
  | nonce
  | ms_certificate_template
  | unregistered (arcs : List Nat)
deriving DecidableEq

/-- Modelled from the spec: `oid::CP_CPS_URI_OID`, the policy-qualifier OID
id-qt-cps 1.3.6.1.5.5.7.2.1 (not an extension OID, so outside the dispatch
table). -/
def CP_CPS_URI_OID : Oid := Oid.unregistered [1, 3, 6, 1, 5, 5, 7, 2, 1]

/-- Modelled from the spec: `oid::CP_USER_NOTICE_OID`, id-qt-unotice
1.3.6.1.5.5.7.2.2. -/
def CP_USER_NOTICE_OID : Oid := Oid.unregistered [1, 3, 6, 1, 5, 5, 7, 2, 2]

/-- IA5 check of a string: every character is in the ASCII repertoire. -/
def is_ascii (s : PyStr) : Bool :=
  s.all (fun c => c.toNat ≤ 127)

/-- The `asn1::IA5String::new` constructor: succeeds exactly when the string
is ASCII. -/
def ia5string_new (s : PyStr) : Option PyStr :=
  if is_ascii s then some s else none

/-- The `extensions::DisplayText` CHOICE; this encoder always picks
`Utf8String`. -/
inductive DisplayText where
  | Utf8String (s : PyStr)
deriving DecidableEq

/-- The `extensions::NoticeReference` record handed to the writer. -/
structure NoticeReference where
  organization : DisplayText
  notice_numbers : List (List Nat)
deriving DecidableEq

/-- The `extensions::UserNotice` record handed to the writer. -/
structure UserNotice where
  notice_ref : Option NoticeReference
  explicit_text : Option DisplayText
deriving DecidableEq

/-- The `extensions::Qualifier` CHOICE. -/
inductive Qualifier where
  | CpsUri (s : PyStr)
  | UserNotice (u : UserNotice)
deriving DecidableEq

/-- The `extensions::PolicyQualifierInfo` record. -/
structure PolicyQualifierInfo where
  policy_qualifier_id : Oid
  qualifier : Qualifier
deriving DecidableEq

/-- The `extensions::PolicyInformation` record. -/
structure PolicyInformation where
  policy_identifier : Oid
  policy_qualifiers : Option (List PolicyQualifierInfo)
deriving DecidableEq

/-- The host view of one notice reference: an organization string and the
notice-number list. -/
structure PyNoticeReference where
  organization : PyStr
  notice_numbers : List Nat
deriving DecidableEq

/-- The host view of a user-notice qualifier: both attributes optional,
tested by truthiness. -/
structure PyUserNotice where
  notice_reference : Option PyNoticeReference
  explicit_text : Option PyStr
deriving DecidableEq

/-- The host view of one policy qualifier: a Python `str` (a CPS URI) or a
UserNotice object, distinguished by `is_instance_of::<PyString>`. -/
inductive PyQualifier where
  | str (s : PyStr)
  | notice (n : PyUserNotice)
deriving DecidableEq

/-- The host view of one PolicyInformation entry. -/
structure PyPolicyInformation where
  policy_identifier : Oid
  policy_qualifiers : Option (List PyQualifier)
deriving DecidableEq

/-- Error-propagating map over a list, as the source's for-loops that push
into a vector and return early on the first failure. -/
def mapE {α β : Type} (f : α → Except String β) : List α → Except String (List β)
  | [] => Except.ok []
  | x :: xs =>
    match f x with
    | Except.error e => Except.error e
    | Except.ok y =>
      match mapE f xs with
      | Except.error e => Except.error e
      | Except.ok ys => Except.ok (y :: ys)

/-- The qualifier branch of `encode_certificate_policies`: a string qualifier
must pass `asn1::IA5String::new` (else the `ValueError` "Qualifier must be an
ASCII-string."); a UserNotice qualifier encodes its truthy attributes as
UTF8String values. -/
def encode_qualifier (q : PyQualifier) : Except String PolicyQualifierInfo :=
  match q with
  | PyQualifier.str s =>
    match ia5string_new s with
    | some cps_uri =>
      Except.ok { policy_qualifier_id := CP_CPS_URI_OID,
                  qualifier := Qualifier.CpsUri cps_uri }
    | none => Except.error "Qualifier must be an ASCII-string."
  | PyQualifier.notice n =>
    let notice_ref :=
      if truthy_obj n.notice_reference then
        let nr := n.notice_reference.getD { organization := [], notice_numbers := [] }
        some { organization := DisplayText.Utf8String nr.organization,
               notice_numbers := nr.notice_numbers.map py_uint_to_big_endian_bytes }
      else none
    let explicit_text :=
      if truthy_list n.explicit_text then
        some (DisplayText.Utf8String (n.explicit_text.getD []))
      else none
    Except.ok { policy_qualifier_id := CP_USER_NOTICE_OID,
                qualifier := Qualifier.UserNotice
                  { notice_ref := notice_ref, explicit_text := explicit_text } }

/-- The per-policy body of `encode_certificate_policies`: the qualifier list
is encoded only when truthy (`None` and the empty list are both skipped). -/
def encode_policy_information (p : PyPolicyInformation) :
    Except String PolicyInformation :=
  if truthy_list p.policy_qualifiers then
    match mapE encode_qualifier (p.policy_qualifiers.getD []) with
    | Except.error e => Except.error e
    | Except.ok qs =>
      Except.ok { policy_identifier := p.policy_identifier,
                  policy_qualifiers := some qs }
  else
    Except.ok { policy_identifier := p.policy_identifier,
                policy_qualifiers := none }

/-- The `encode_certificate_policies` loop, producing the SEQUENCE OF
PolicyInformation or the first error. -/
def encode_certificate_policies (pis : List PyPolicyInformation) :
    Except String (List PolicyInformation) :=
  mapE encode_policy_information pis

/-- The two big-endian bytes of `(n as u16).to_be_bytes()`: the value is
truncated modulo 2^16 by the cast, then split into high and low byte. -/
def u16_be_bytes (n : Nat) : List Nat :=
  [n % 65536 / 256, n % 256]

/-- The body of `encode_scts`: one pass sums each SCT's framed size
(`sct_data.len() + 2`), the prefix is the sum cast to `u16`, then each SCT is
emitted behind its own `u16` length prefix.  The resulting buffer is the
OCTET STRING payload. -/
def encode_scts (scts : List (List Nat)) : List Nat :=
  let length := scts.foldl (fun acc sct => acc + (sct.length + 2)) 0
  let result : List Nat := []
  let result := result ++ u16_be_bytes length
  scts.foldl (fun acc sct => acc ++ u16_be_bytes sct.length ++ sct) result

/-- Concatenated image of a list under a list-valued function (the shape of
the SCT body and of SEQUENCE OF contents). -/
def concat_map {α β : Type} (f : α → List β) : List α → List β
  | [] => []
  | x :: xs => f x ++ concat_map f xs

/-- The RFC 6962 framing with every length taken modulo 2^16, written
directly from the claim's words for comparison with `encode_scts`. -/
def sct_list_payload_mod (scts : List (List Nat)) : List Nat :=
  u16_be_bytes ((scts.map (fun s => s.length + 2)).sum % 65536) ++
    concat_map (fun s => u16_be_bytes (s.length % 65536) ++ s) scts

/-- The exact RFC 6962 framing (no truncation), written from the claim's
words: a two-byte big-endian total, then each SCT behind its two-byte
big-endian length. -/
def sct_list_payload_exact (scts : List (List Nat)) : List Nat :=
  let total := (scts.map (fun s => s.length + 2)).sum
  [total / 256, total % 256] ++
    concat_map (fun s => [s.length / 256, s.length % 256] ++ s) scts

/-- Big-endian value of the first two bytes of a buffer. -/
def be2_value : List Nat → Nat
  | a :: b :: _ => 256 * a + b
  | _ => 0

/-- The `extensions::AuthorityKeyIdentifier` record handed to the writer
(the serial number already converted to its big-endian bytes). -/
structure AuthorityKeyIdentifier where
  key_identifier : Option (List Nat)
  authority_cert_issuer : Option (List GeneralName)
  authority_cert_serial_number : Option (List Nat)
deriving DecidableEq

/-- Modelled from the spec: the CRL-reason code table
`types::CRL_ENTRY_REASON_ENUM_TO_CODE`, a fixed map from the host reason
enumeration to its RFC 5280 code; lookup fails for an unmapped value. -/
def crl_entry_reason_enum_to_code (reason : String) : Option Nat :=
  List.lookup reason
    [("unspecified", 0), ("key_compromise", 1), ("ca_compromise", 2),
     ("affiliation_changed", 3), ("superseded", 4),
     ("cessation_of_operation", 5), ("certificate_hold", 6),
     ("remove_from_crl", 8), ("privilege_withdrawn", 9),
     ("aa_compromise", 10)]

/-- The structured value handed to `asn1::write_single` by a dispatcher arm:
each constructor mirrors one Rust value type written by the module.  `null`
is the unit value `()`, which the writer frames as a DER NULL with
zero-length content. -/
inductive Asn1Value where
  | null
  | octetString (bytes : List Nat)
  | bitString (bytes : List Nat) (unused : Nat)
  | bigUint (bytes : List Nat)
  | enumerated (value : Nat)
  | generalizedTime (t : Nat)
  | sequenceOfOids (oids : List Oid)
  | sequenceOfInts (ints : List Nat)
  | sequenceOfGeneralNames (gns : List GeneralName)
  | sequenceOfDps (dps : List DistributionPoint)
  | sequenceOfPolicyInfos (pis : List PolicyInformation)
  | sequenceOfAccessDescriptions (ads : List AccessDescription)
  | basicConstraintsValue (ca : Bool) (path_length : Option Nat)
  | authorityKeyIdentifierValue (aki : AuthorityKeyIdentifier)
  | policyConstraintsValue (require_explicit_policy : Option Nat)
      (inhibit_policy_mapping : Option Nat)
  | nameConstraintsValue (permitted_subtrees : Option (List GeneralSubtree))
      (excluded_subtrees : Option (List GeneralSubtree))
  | issuingDistributionPointValue (idp : IssuingDistributionPoint)
  | msCertificateTemplateValue (template_id : Oid) (major_version : Nat)
      (minor_version : Nat)
deriving DecidableEq

/-- The host extension value passed to `encode_extension`: one constructor
per host-object shape the arms extract from, plus `otherObj` for a host
object matching none of them (every extraction fails on it). -/
inductive ExtnValue where
  | bc (ca : Bool) (path_length : Option Nat)
  | ski (digest : List Nat)
  | ku (v : KeyUsage)
  | accessDescriptions (ads : List AccessDescription)
  | oidList (oids : List Oid)
  | policies (pis : List PyPolicyInformation)
  | pc (require_explicit_policy : Option Nat) (inhibit_policy_mapping : Option Nat)
  | nc (permitted_subtrees : Option (List GeneralName))
      (excluded_subtrees : Option (List GeneralName))
  | iap (skip_certs : Nat)
  | generalNames (gns : List GeneralName)
  | akiObj (key_identifier : Option (List Nat))
      (authority_cert_issuer : Option (List GeneralName))
      (authority_cert_serial_number : Option Nat)
  | dps (l : List PyDistributionPoint)
  | tls (features : List Nat)
  | sctList (scts : List (List Nat))
  | crlReasonObj (reason : String)
  | invalidityDateObj (invalidity_date : Nat)
  | crlNumberObj (crl_number : Nat)
  | idpObj (v : PyIssuingDistributionPoint)
  | nonceObj (nonce : List Nat)
  | msTemplateObj (template_id : Oid) (major_version : Nat) (minor_version : Nat)
  | otherObj
deriving DecidableEq

/-- A failed Python attribute extraction (the host object has the wrong
shape for the arm's view), surfaced as the dispatcher's error. -/
def extraction_error {α : Type} : Except String α :=
  Except.error "TypeError"

/-- The `encode_basic_constraints` function: extracts `ca` and `path_length`
and writes the `extensions::BasicConstraints` value. -/
def encode_basic_constraints (ext : ExtnValue) : Except String Asn1Value :=
  match ext with
  | ExtnValue.bc ca path_length =>
    Except.ok (Asn1Value.basicConstraintsValue ca path_length)
  | _ => extraction_error

/-- The SUBJECT_KEY_IDENTIFIER arm: extracts `digest` and writes it as an
OCTET STRING. -/
def encode_subject_key_identifier (ext : ExtnValue) : Except String Asn1Value :=
  match ext with
  | ExtnValue.ski digest => Except.ok (Asn1Value.octetString digest)
  | _ => extraction_error

/-- The KEY_USAGE arm: `encode_key_usage` builds the trimmed BIT STRING. -/
def encode_key_usage_arm (ext : ExtnValue) : Except String Asn1Value :=
  match ext with
  | ExtnValue.ku v =>
    Except.ok (Asn1Value.bitString (encode_key_usage v).1 (encode_key_usage v).2)
  | _ => extraction_error

/-- Modelled from the spec: `x509::common::encode_access_descriptions`
belongs to the naming subsystem; it writes the SEQUENCE OF AccessDescription
for the iterable host value. -/
def encode_access_descriptions (ext : ExtnValue) : Except String Asn1Value :=
  match ext with
  | ExtnValue.accessDescriptions ads =>
    Except.ok (Asn1Value.sequenceOfAccessDescriptions ads)
  | _ => extraction_error

/-- The `encode_oid_sequence` function: converts each element with
`py_oid_to_oid` and writes a SEQUENCE OF OBJECT IDENTIFIER in input order. -/
def encode_oid_sequence (ext : ExtnValue) : Except String Asn1Value :=
  match ext with
  | ExtnValue.oidList oids => Except.ok (Asn1Value.sequenceOfOids oids)
  | _ => extraction_error

/-- The CERTIFICATE_POLICIES arm around `encode_certificate_policies`. -/
def encode_certificate_policies_arm (ext : ExtnValue) : Except String Asn1Value :=
  match ext with
  | ExtnValue.policies pis =>
    match encode_certificate_policies pis with
    | Except.error e => Except.error e
    | Except.ok l => Except.ok (Asn1Value.sequenceOfPolicyInfos l)
  | _ => extraction_error

/-- The POLICY_CONSTRAINTS arm: extracts both optional skip counts. -/
def encode_policy_constraints (ext : ExtnValue) : Except String Asn1Value :=
  match ext with
  | ExtnValue.pc req inh => Except.ok (Asn1Value.policyConstraintsValue req inh)
  | _ => extraction_error

/-- The NAME_CONSTRAINTS arm: both subtree lists go through
`encode_general_subtrees`. -/
def encode_name_constraints (ext : ExtnValue) : Except String Asn1Value :=
  match ext with
  | ExtnValue.nc permitted excluded =>
    Except.ok (Asn1Value.nameConstraintsValue
      (encode_general_subtrees permitted) (encode_general_subtrees excluded))
  | _ => extraction_error

/-- The INHIBIT_ANY_POLICY arm: `skip_certs` as a big-endian unsigned
INTEGER. -/
def encode_inhibit_any_policy (ext : ExtnValue) : Except String Asn1Value :=
  match ext with
  | ExtnValue.iap skip_certs =>
    Except.ok (Asn1Value.bigUint (py_uint_to_big_endian_bytes skip_certs))
  | _ => extraction_error

/-- The ISSUER/SUBJECT_ALTERNATIVE_NAME and CERTIFICATE_ISSUER arms: the
extension value itself is the iterable of general names. -/
def encode_general_names_arm (ext : ExtnValue) : Except String Asn1Value :=
  match ext with
  | ExtnValue.generalNames gns =>
    Except.ok (Asn1Value.sequenceOfGeneralNames (gns.map encode_general_name))
  | _ => extraction_error

/-- The `encode_authority_key_identifier` function: three optional fields,
the serial number converted to its minimal big-endian bytes. -/
def encode_authority_key_identifier (ext : ExtnValue) : Except String Asn1Value :=
  match ext with
  | ExtnValue.akiObj key_identifier authority_cert_issuer serial =>
    Except.ok (Asn1Value.authorityKeyIdentifierValue
      { key_identifier := key_identifier,
        authority_cert_issuer :=
          match authority_cert_issuer with
          | some gns => some (gns.map encode_general_name)
          | none => none,
        authority_cert_serial_number :=
          match serial with
          | some n => some (py_uint_to_big_endian_bytes n)
          | none => none })
  | _ => extraction_error

/-- The FRESHEST_CRL / CRL_DISTRIBUTION_POINTS arm around
`encode_distribution_points`. -/
def encode_distribution_points_arm (ext : ExtnValue) : Except String Asn1Value :=
  match ext with
  | ExtnValue.dps l => Except.ok (Asn1Value.sequenceOfDps (encode_distribution_points l))
  | _ => extraction_error

/-- The OCSP_NO_CHECK and PRECERT_POISON arms write the unit value `()`
without reading the extension object: a DER NULL with zero-length content. -/
def write_single_null (_ext : ExtnValue) : Except String Asn1Value :=
  Except.ok Asn1Value.null

/-- The `encode_tls_features` function: each element's `value` attribute as
an unsigned integer, SEQUENCE OF in input order. -/
def encode_tls_features (ext : ExtnValue) : Except String Asn1Value :=
  match ext with
  | ExtnValue.tls features => Except.ok (Asn1Value.sequenceOfInts features)
  | _ => extraction_error

/-- The SCT arms around `encode_scts`: the packed buffer is written as an
OCTET STRING. -/
def encode_scts_arm (ext : ExtnValue) : Except String Asn1Value :=
  match ext with
  | ExtnValue.sctList scts => Except.ok (Asn1Value.octetString (encode_scts scts))
  | _ => extraction_error

/-- The CRL_REASON arm: the reason is looked up in the fixed code table and
written as an ENUMERATED; an unmapped value is a KeyError. -/
def encode_crl_reason (ext : ExtnValue) : Except String Asn1Value :=
  match ext with
  | ExtnValue.crlReasonObj reason =>
    match crl_entry_reason_enum_to_code reason with
    | some code => Except.ok (Asn1Value.enumerated code)
    | none => Except.error "KeyError"
  | _ => extraction_error

/-- The INVALIDITY_DATE arm: the timestamp is converted by the calendar
collaborator and written as a GeneralizedTime. -/
def encode_invalidity_date (ext : ExtnValue) : Except String Asn1Value :=
  match ext with
  | ExtnValue.invalidityDateObj dt => Except.ok (Asn1Value.generalizedTime dt)
  | _ => extraction_error

/-- The CRL_NUMBER / DELTA_CRL_INDICATOR arm: the `crl_number` attribute as
a big-endian unsigned INTEGER. -/
def encode_crl_number (ext : ExtnValue) : Except String Asn1Value :=
  match ext with
  | ExtnValue.crlNumberObj n =>
    Except.ok (Asn1Value.bigUint (py_uint_to_big_endian_bytes n))
  | _ => extraction_error

/-- The ISSUING_DISTRIBUTION_POINT arm around
`encode_issuing_distribution_point`. -/
def encode_issuing_distribution_point_arm (ext : ExtnValue) :
    Except String Asn1Value :=
  match ext with
  | ExtnValue.idpObj v =>
    Except.ok (Asn1Value.issuingDistributionPointValue
      (encode_issuing_distribution_point v))
  | _ => extraction_error

/-- The NONCE arm: the `nonce` attribute written as an OCTET STRING. -/
def encode_nonce (ext : ExtnValue) : Except String Asn1Value :=
  match ext with
  | ExtnValue.nonceObj nonce => Except.ok (Asn1Value.octetString nonce)
  | _ => extraction_error

/-- The MS_CERTIFICATE_TEMPLATE arm: template OID plus the two version
numbers in a fixed SEQUENCE shape. -/
def encode_ms_certificate_template (ext : ExtnValue) : Except String Asn1Value :=
  match ext with
  | ExtnValue.msTemplateObj template_id major_version minor_version =>
    Except.ok (Asn1Value.msCertificateTemplateValue template_id major_version
      minor_version)
  | _ => extraction_error

/-- The `encode_extension` dispatcher: exact-match dispatch on the OID over
the fixed table, each arm returning `Some` of its encoder's output; an OID
outside the table yields `Ok(None)` without touching the value. -/
def encode_extension (oid : Oid) (ext : ExtnValue) :
    Except String (Option Asn1Value) :=
  match oid with
  | Oid.basic_constraints => (encode_basic_constraints ext).map some
  | Oid.subject_key_identifier => (encode_subject_key_identifier ext).map some
  | Oid.key_usage => (encode_key_usage_arm ext).map some
  | Oid.authority_information_access
  | Oid.subject_information_access => (encode_access_descriptions ext).map some
  | Oid.extended_key_usage
  | Oid.acceptable_responses => (encode_oid_sequence ext).map some
  | Oid.certificate_policies => (encode_certificate_policies_arm ext).map some
  | Oid.policy_constraints => (encode_policy_constraints ext).map some
  | Oid.name_constraints => (encode_name_constraints ext).map some
  | Oid.inhibit_any_policy => (encode_inhibit_any_policy ext).map some
  | Oid.issuer_alternative_name
  | Oid.subject_alternative_name => (encode_general_names_arm ext).map some
  | Oid.authority_key_identifier => (encode_authority_key_identifier ext).map some
  | Oid.freshest_crl
  | Oid.crl_distribution_points => (encode_distribution_points_arm ext).map some
  | Oid.ocsp_no_check => (write_single_null ext).map some
  | Oid.tls_feature => (encode_tls_features ext).map some
  | Oid.precert_poison => (write_single_null ext).map some
  | Oid.precert_signed_certificate_timestamps
  | Oid.signed_certificate_timestamps => (encode_scts_arm ext).map some
  | Oid.crl_reason => (encode_crl_reason ext).map some
  | Oid.certificate_issuer => (encode_general_names_arm ext).map some
  | Oid.invalidity_date => (encode_invalidity_date ext).map some
  | Oid.crl_number
  | Oid.delta_crl_indicator => (encode_crl_number ext).map some
  | Oid.issuing_distribution_point =>
    (encode_issuing_distribution_point_arm ext).map some
  | Oid.nonce => (encode_nonce ext).map some
  | Oid.ms_certificate_template => (encode_ms_certificate_template ext).map some
  | Oid.unregistered _ => Except.ok none

/-- The dispatcher's fixed table: every OID `encode_extension` matches on. -/
def dispatch_table : List Oid :=
  [Oid.basic_constraints, Oid.subject_key_identifier, Oid.key_usage,
   Oid.authority_information_access, Oid.subject_information_access,
   Oid.extended_key_usage, Oid.acceptable_responses, Oid.certificate_policies,
   Oid.policy_constraints, Oid.name_constraints, Oid.inhibit_any_policy,
   Oid.issuer_alternative_name, Oid.subject_alternative_name,
   Oid.authority_key_identifier, Oid.freshest_crl, Oid.crl_distribution_points,
   Oid.ocsp_no_check, Oid.tls_feature, Oid.precert_poison,
   Oid.precert_signed_certificate_timestamps, Oid.signed_certificate_timestamps,
   Oid.crl_reason, Oid.certificate_issuer, Oid.invalidity_date, Oid.crl_number,
   Oid.delta_crl_indicator, Oid.issuing_distribution_point, Oid.nonce,
   Oid.ms_certificate_template]

/-- Discriminator for the FullName arm of the DistributionPointName CHOICE. -/
def is_full_name_form : Option DistributionPointName → Bool
  | some (DistributionPointName.FullName _) => true
  | _ => false

/-- Success discriminator on a fallible encoding result. -/
def exceptOk {α : Type} : Except String α → Bool
  | Except.ok _ => true
  | Except.error _ => false

/-- Truth of `has_non_ascii_cps_qualifier`: some policy of the list carries a
string (CPS-URI) qualifier with a character outside the IA5 repertoire. -/
def has_non_ascii_cps_qualifier (pis : List PyPolicyInformation) : Bool :=
  pis.any (fun p => (p.policy_qualifiers.getD []).any (fun q =>
    match q with
    | PyQualifier.str s => !is_ascii s
    | PyQualifier.notice _ => false))

/-- An IssuingDistributionPoint host value carrying both a (present but
empty) full name and a non-empty relative name. -/
def idp_both_supplied : PyIssuingDistributionPoint :=
  { only_some_reasons := none, full_name := some [], relative_name := some [5],
    indirect_crl := false, only_contains_attribute_certs := false,
    only_contains_ca_certs := false, only_contains_user_certs := false }

/-- An SCT blob whose framed size pushes the list total past 2^16. -/
def oversized_sct : List Nat := List.replicate 65534 0

end X509Ext

namespace X509Ext

lemma except_map_some_ne_ok_none (e : Except String Asn1Value) :
    e.map some ≠ Except.ok (none : Option Asn1Value) := by
  intro h
  cases e <;> simp [Except.map] at h

lemma foldl_add_framed_sum (l : List (List Nat)) (a : Nat) :
    l.foldl (fun acc sct => acc + (sct.length + 2)) a =
      a + (l.map (fun s => s.length + 2)).sum := by
  induction l generalizing a with
  | nil => simp
  | cons x xs ih => simp [List.foldl, ih, Nat.add_assoc]

lemma foldl_append_concat (l : List (List Nat)) (init : List Nat) :
    l.foldl (fun acc sct => acc ++ u16_be_bytes sct.length ++ sct) init =
      init ++ concat_map (fun s => u16_be_bytes s.length ++ s) l := by
  induction l generalizing init with
  | nil => simp [concat_map]
  | cons x xs ih =>
    simp only [List.foldl_cons, concat_map]
    rw [ih]
    simp [List.append_assoc]

lemma u16_be_bytes_mod (n : Nat) : u16_be_bytes (n % 65536) = u16_be_bytes n := by
  simp [u16_be_bytes, Nat.mod_mod_of_dvd n (by norm_num : (256 : Nat) ∣ 65536)]

lemma concat_map_congr {α β : Type} {f g : α → List β} :
    ∀ l : List α, (∀ x ∈ l, f x = g x) → concat_map f l = concat_map g l := by
  intro l h
  induction l with
  | nil => rfl
  | cons x xs ih =>
    simp only [concat_map]
    rw [h x (by simp), ih (fun y hy => h y (by simp [hy]))]

lemma encode_scts_eq_mod (scts : List (List Nat)) :
    encode_scts scts = sct_list_payload_mod scts := by
  have hmap : concat_map (fun s => u16_be_bytes (s.length % 65536) ++ s) scts =
      concat_map (fun s => u16_be_bytes s.length ++ s) scts :=
    concat_map_congr scts (fun s _ => by rw [u16_be_bytes_mod])
  simp only [encode_scts, sct_list_payload_mod, foldl_append_concat,
    foldl_add_framed_sum, Nat.zero_add, List.nil_append, u16_be_bytes_mod, hmap]

lemma framed_len_le_sum (l : List (List Nat)) (s : List Nat) (hs : s ∈ l) :
    s.length + 2 ≤ (l.map (fun t => t.length + 2)).sum := by
  induction l with
  | nil => cases hs
  | cons x xs ih =>
    rcases List.mem_cons.mp hs with h | h
    · subst h
      simp only [List.map_cons, List.sum_cons]
      omega
    · have hx := ih h
      simp only [List.map_cons, List.sum_cons]
      omega

lemma mapE_ok {α β : Type} (f : α → Except String β) (l : List α) :
    exceptOk (mapE f l) = l.all (fun x => exceptOk (f x)) := by
  induction l with
  | nil => rfl
  | cons x xs ih =>
    simp only [mapE, List.all_cons]
    cases hx : f x with
    | error e => simp [exceptOk]
    | ok y =>
      cases hxs : mapE f xs with
      | error e => rw [← ih, hxs]; simp [exceptOk]
      | ok ys => rw [← ih, hxs]; simp [exceptOk]

lemma encode_qualifier_ok (q : PyQualifier) :
    exceptOk (encode_qualifier q) =
      (match q with
       | PyQualifier.str s => is_ascii s
       | PyQualifier.notice _ => true) := by
  cases q with
  | str s =>
    by_cases h : is_ascii s = true <;>
      simp [encode_qualifier, ia5string_new, h, exceptOk]
  | notice n => simp [encode_qualifier, exceptOk]

lemma encode_policy_information_ok (p : PyPolicyInformation) :
    exceptOk (encode_policy_information p) =
      !(p.policy_qualifiers.getD []).any (fun q =>
        match q with
        | PyQualifier.str s => !is_ascii s
        | PyQualifier.notice _ => false) := by
  by_cases ht : truthy_list p.policy_qualifiers = true
  · have hok : exceptOk (mapE encode_qualifier (p.policy_qualifiers.getD [])) =
        !(p.policy_qualifiers.getD []).any (fun q =>
          match q with
          | PyQualifier.str s => !is_ascii s
          | PyQualifier.notice _ => false) := by
      rw [mapE_ok]
      induction p.policy_qualifiers.getD [] with
      | nil => rfl
      | cons q qs ih =>
        rw [List.all_cons, List.any_cons, Bool.not_or, encode_qualifier_ok, ih]
        cases q <;> simp
    rw [← hok]
    simp only [encode_policy_information, ht, if_true]
    cases hm : mapE encode_qualifier (p.policy_qualifiers.getD []) <;>
      simp [exceptOk, hm]
  · simp only [encode_policy_information, ht, if_false, Bool.false_eq_true]
    cases hq : p.policy_qualifiers with
    | none => simp [exceptOk]
    | some l =>
      cases l with
      | nil => simp [exceptOk]
      | cons q qs =>
        exfalso
        apply ht
        simp [hq, truthy_list]

lemma encode_certificate_policies_ok (pis : List PyPolicyInformation) :
    exceptOk (encode_certificate_policies pis) =
      !has_non_ascii_cps_qualifier pis := by
  simp only [encode_certificate_policies, has_non_ascii_cps_qualifier,
    mapE_ok]
  induction pis with
  | nil => rfl
  | cons p ps ih =>
    rw [List.all_cons, List.any_cons, Bool.not_or, encode_policy_information_ok,
      ih]

lemma be2_value_u16 (m : Nat) (rest : List Nat) :
    be2_value (u16_be_bytes m ++ rest) = m % 65536 := by
  simp only [u16_be_bytes, List.cons_append, List.nil_append, be2_value]
  omega

/-- C1: for every combination of the 9 KeyUsage flags the encoded BIT STRING
is minimally trimmed: a zero second mask byte is dropped, the all-zero mask
encodes as the empty bit string with 0 unused bits, otherwise the unused-bit
count is the trailing-zero count of the last retained byte; hence the last
retained byte is never zero and the significant bit count is exactly one
past the last set flag bit. -/
theorem keyUsage_bitstring_minimal (ku : KeyUsage) :
    ((key_usage_mask ku).2 = 0 ∧ (key_usage_mask ku).1 = 0 →
      encode_key_usage ku = ([], 0)) ∧
    ((key_usage_mask ku).2 = 0 ∧ (key_usage_mask ku).1 ≠ 0 →
      encode_key_usage ku =
        ([(key_usage_mask ku).1], trailing_zeros_u8 (key_usage_mask ku).1)) ∧
    ((key_usage_mask ku).2 ≠ 0 →
      encode_key_usage ku =
        ([(key_usage_mask ku).1, (key_usage_mask ku).2],
          trailing_zeros_u8 (key_usage_mask ku).2)) ∧
    (encode_key_usage ku).1.getLast?.getD 1 ≠ 0 ∧
    (last_set_bit (effective_bits ku) = none → encode_key_usage ku = ([], 0)) ∧
    (last_set_bit (effective_bits ku) ≠ none →
      8 * (encode_key_usage ku).1.length - (encode_key_usage ku).2 =
        (last_set_bit (effective_bits ku)).getD 0 + 1) := by
  obtain ⟨a, b, c, d, e, f, g, h, i⟩ := ku
  revert a b c d e f g h i
  decide

/-- C8: two KeyUsage inputs with `key_agreement` false that differ only in
`encipher_only` and/or `decipher_only` encode identically; and when
`key_agreement` is true, mask bit 7 (LSB of the first byte) tracks
`encipher_only` and mask bit 8 (MSB of the second byte) tracks
`decipher_only`. -/
theorem keyUsage_conditional_bits :
    (∀ ds cc ke de kc cs e1 d1 e2 d2 : Bool,
      encode_key_usage (KeyUsage.mk ds cc ke de false kc cs e1 d1) =
        encode_key_usage (KeyUsage.mk ds cc ke de false kc cs e2 d2)) ∧
    (∀ ds cc ke de kc cs eo dc : Bool,
      (key_usage_mask (KeyUsage.mk ds cc ke de true kc cs eo dc)).1.testBit 0
          = eo ∧
      (key_usage_mask (KeyUsage.mk ds cc ke de true kc cs eo dc)).2.testBit 7
          = dc) := by
  constructor <;> decide

/-- C4: every GeneralSubtree record produced by `encode_general_subtrees`
has `minimum = 0` and `maximum` absent, whatever the input. -/
theorem nameConstraints_subtrees_fixed :
    ∀ (subtrees : Option (List GeneralName)) (l : List GeneralSubtree),
      encode_general_subtrees subtrees = some l →
      ∀ st ∈ l, st.minimum = 0 ∧ st.maximum = none := by
  intro subtrees l hl st hst
  cases subtrees with
  | none => simp [encode_general_subtrees] at hl
  | some names =>
    simp only [encode_general_subtrees, Option.some_inj] at hl
    subst hl
    rcases List.mem_map.mp hst with ⟨name, _, rfl⟩
    exact ⟨rfl, rfl⟩

/-- Witness for C4: the theorem applied to the one-name subtree list. -/
theorem nameConstraints_subtrees_fixed_witness :
    ({ base := 7, minimum := 0, maximum := none } : GeneralSubtree).minimum
        = 0 ∧
    ({ base := 7, minimum := 0, maximum := none } : GeneralSubtree).maximum
        = none :=
  nameConstraints_subtrees_fixed (some [7])
    [{ base := 7, minimum := 0, maximum := none }] rfl
    { base := 7, minimum := 0, maximum := none } (by simp)

/-- C3 counterexample: an IssuingDistributionPoint value supplying both
fields (a present-but-empty `full_name` and a non-empty `relative_name`)
encodes the NameRelativeToCRLIssuer form, not the FullName form, because
`encode_issuing_distribution_point` tests `full_name` by truthiness. -/
theorem idp_full_name_precedence_cex :
    idp_both_supplied.full_name.isSome = true ∧
    idp_both_supplied.relative_name.isSome = true ∧
    (encode_issuing_distribution_point idp_both_supplied).distribution_point =
      some (DistributionPointName.NameRelativeToCRLIssuer [5]) ∧
    is_full_name_form
      (encode_issuing_distribution_point idp_both_supplied).distribution_point
        = false := by
  decide

/-- C3 (amended): `full_name` is checked first in both encoders, so whenever
it is present (for `encode_distribution_points`) respectively present and
non-empty (for `encode_issuing_distribution_point`, which tests truthiness),
the encoded DistributionPointName is the FullName form built from
`full_name`; the relative form appears only when `full_name` is `None`
respectively falsy. -/
theorem dp_full_name_precedence (pdp : PyDistributionPoint)
    (pidp : PyIssuingDistributionPoint) (gns gns2 : List GeneralName) :
    (pdp.full_name = some gns →
      (encode_distribution_point pdp).distribution_point =
        some (DistributionPointName.FullName (gns.map encode_general_name))) ∧
    (pidp.full_name = some gns2 → gns2 ≠ [] →
      (encode_issuing_distribution_point pidp).distribution_point =
        some (DistributionPointName.FullName (gns2.map encode_general_name))) ∧
    (∀ entries, (encode_distribution_point pdp).distribution_point =
        some (DistributionPointName.NameRelativeToCRLIssuer entries) →
      pdp.full_name = none) ∧
    (∀ entries,
      (encode_issuing_distribution_point pidp).distribution_point =
        some (DistributionPointName.NameRelativeToCRLIssuer entries) →
      truthy_list pidp.full_name = false) := by
  refine ⟨?_, ?_, ?_, ?_⟩
  · intro h
    simp [encode_distribution_point, h]
  · intro h hne
    have ht : truthy_list (some gns2) = true := by
      cases gns2 with
      | nil => exact absurd rfl hne
      | cons x xs => simp [truthy_list]
    simp [encode_issuing_distribution_point, h, ht]
  · intro entries h
    cases hf : pdp.full_name with
    | none => rfl
    | some gl => simp [encode_distribution_point, hf] at h
  · intro entries h
    cases ht : truthy_list pidp.full_name with
    | false => rfl
    | true => simp [encode_issuing_distribution_point, ht] at h

/-- A DistributionPoint host value supplying both names. -/
def dp_both_supplied : PyDistributionPoint :=
  { crl_issuer := none, full_name := some [3], relative_name := some [4],
    reasons := none }

/-- An IssuingDistributionPoint host value supplying both names, the full
name non-empty. -/
def idp_both_nonempty : PyIssuingDistributionPoint :=
  { only_some_reasons := none, full_name := some [3],
    relative_name := some [4], indirect_crl := false,
    only_contains_attribute_certs := false, only_contains_ca_certs := false,
    only_contains_user_certs := false }

/-- Witness for C3 (amended): both encoders pick the FullName form at a
concrete both-supplied input with a non-empty full name. -/
theorem dp_full_name_precedence_witness :
    (encode_distribution_point dp_both_supplied).distribution_point =
      some (DistributionPointName.FullName [3]) ∧
    (encode_issuing_distribution_point idp_both_nonempty).distribution_point =
      some (DistributionPointName.FullName [3]) := by
  have h := dp_full_name_precedence dp_both_supplied idp_both_nonempty [3] [3]
  exact ⟨by simpa [encode_general_name] using h.1 rfl,
    by simpa [encode_general_name] using h.2.1 rfl (by decide)⟩

/-- C10: `encode_distribution_points` tests its four optional fields against
`None` (so a present field is encoded even when empty, and a present-but-
empty `full_name` yields a FullName with an empty list), while
`encode_issuing_distribution_point` tests `full_name`, `relative_name` and
`only_some_reasons` by truthiness (a present-but-empty list is treated as
absent). -/
theorem dp_absence_test_asymmetry (pdp : PyDistributionPoint)
    (pidp : PyIssuingDistributionPoint) :
    ((encode_distribution_point pdp).crl_issuer.isSome =
      pdp.crl_issuer.isSome) ∧
    ((encode_distribution_point pdp).reasons.isSome = pdp.reasons.isSome) ∧
    ((encode_distribution_point pdp).distribution_point = none ↔
      pdp.full_name = none ∧ pdp.relative_name = none) ∧
    (pdp.full_name = some [] →
      (encode_distribution_point pdp).distribution_point =
        some (DistributionPointName.FullName [])) ∧
    ((encode_issuing_distribution_point pidp).distribution_point = none ↔
      truthy_list pidp.full_name = false ∧
        truthy_list pidp.relative_name = false) ∧
    ((encode_issuing_distribution_point pidp).only_some_reasons.isSome =
      truthy_list pidp.only_some_reasons) ∧
    truthy_list (some ([] : List GeneralName)) = false := by
  refine ⟨?_, ?_, ?_, ?_, ?_, ?_, by decide⟩
  · cases hc : pdp.crl_issuer <;> simp [encode_distribution_point, hc]
  · cases hr : pdp.reasons <;> simp [encode_distribution_point, hr]
  · cases hf : pdp.full_name <;> cases hr : pdp.relative_name <;>
      simp [encode_distribution_point, hf, hr]
  · intro h
    simp [encode_distribution_point, h]
  · cases htf : truthy_list pidp.full_name <;>
      cases htr : truthy_list pidp.relative_name <;>
        simp [encode_issuing_distribution_point, htf, htr]
  · cases hts : truthy_list pidp.only_some_reasons <;>
      simp [encode_issuing_distribution_point, hts]

/-- A DistributionPoint host value with a present-but-empty full name. -/
def dp_empty_full_name : PyDistributionPoint :=
  { crl_issuer := none, full_name := some [], relative_name := none,
    reasons := none }

/-- An IssuingDistributionPoint host value with a present-but-empty full
name. -/
def idp_empty_full_name : PyIssuingDistributionPoint :=
  { only_some_reasons := none, full_name := some [], relative_name := none,
    indirect_crl := false, only_contains_attribute_certs := false,
    only_contains_ca_certs := false, only_contains_user_certs := false }

/-- Witness for C10: the same present-but-empty full name is encoded as an
empty FullName by the DistributionPoint encoder and dropped by the
IssuingDistributionPoint encoder. -/
theorem dp_absence_test_asymmetry_witness :
    (encode_distribution_point dp_empty_full_name).distribution_point =
      some (DistributionPointName.FullName []) ∧
    (encode_issuing_distribution_point idp_empty_full_name).distribution_point
      = none := by
  have h := dp_absence_test_asymmetry dp_empty_full_name idp_empty_full_name
  exact ⟨h.2.2.2.1 rfl, (h.2.2.2.2.1).mpr (by decide)⟩

/-- C5 counterexample: a single SCT of 65534 bytes gives a framed total of
65536, but the `as u16` cast makes the emitted 2-byte prefix read 0, not the
sum over all SCTs of (length + 2). -/
theorem sct_prefix_cex :
    be2_value (encode_scts [oversized_sct]) = 0 ∧
    ([oversized_sct].map (fun s => s.length + 2)).sum = 65536 ∧
    be2_value (encode_scts [oversized_sct]) ≠
      ([oversized_sct].map (fun s => s.length + 2)).sum := by
  have hlen : oversized_sct.length = 65534 := List.length_replicate _ _
  have h2 : ([oversized_sct].map (fun s => s.length + 2)).sum = 65536 := by
    rw [List.map_cons, List.map_nil, List.sum_cons, List.sum_nil, hlen]
    omega
  have h1 : be2_value (encode_scts [oversized_sct]) = 0 := by
    rw [encode_scts_eq_mod]
    simp only [sct_list_payload_mod]
    rw [be2_value_u16, h2]
  refine ⟨h1, h2, ?_⟩
  rw [h1, h2]
  omega

/-- C5 (amended): whenever the framed total (and hence every individual SCT
length) fits in 16 bits, the SCT-list payload is exactly the 2-byte
big-endian total, then each SCT in input order behind its own 2-byte
big-endian length prefix; in general the emitted prefixes hold the values
reduced modulo 2^16. -/
theorem sct_list_payload_correct (scts : List (List Nat))
    (hfit : (scts.map (fun s => s.length + 2)).sum < 65536) :
    encode_scts scts = sct_list_payload_exact scts := by
  rw [encode_scts_eq_mod]
  simp only [sct_list_payload_mod, sct_list_payload_exact]
  rw [Nat.mod_eq_of_lt hfit]
  congr 1
  · simp only [u16_be_bytes, Nat.mod_eq_of_lt hfit]
  · apply concat_map_congr
    intro s hs
    have hle := framed_len_le_sum scts s hs
    have hlt : s.length < 65536 := by omega
    simp only [u16_be_bytes, Nat.mod_eq_of_lt hlt]

/-- Witness for C5 (amended): two SCTs of lengths 5 and 3 produce the
payload 00 0C 00 05 (5 bytes) 00 03 (3 bytes). -/
theorem sct_list_payload_correct_witness :
    encode_scts [[1, 2, 3, 4, 5], [6, 7, 8]] =
      [0, 12, 0, 5, 1, 2, 3, 4, 5, 0, 3, 6, 7, 8] := by
  have h := sct_list_payload_correct [[1, 2, 3, 4, 5], [6, 7, 8]] (by decide)
  exact h.trans (by decide)

/-- C9: both the total-length prefix and each per-SCT length prefix are the
true values reduced modulo 2^16 (the `as u16` cast), with no error raised:
the payload always equals the mod-2^16 RFC 6962 framing, and the leading
2-byte prefix reads the framed total modulo 2^16. -/
theorem sct_length_prefixes_truncate (scts : List (List Nat)) :
    encode_scts scts = sct_list_payload_mod scts ∧
    be2_value (encode_scts scts) =
      (scts.map (fun s => s.length + 2)).sum % 65536 := by
  refine ⟨encode_scts_eq_mod scts, ?_⟩
  rw [encode_scts_eq_mod]
  simp only [sct_list_payload_mod]
  rw [be2_value_u16]
  omega

/-- C6: `encode_certificate_policies` fails exactly when some policy carries
a string (CPS-URI) qualifier with a character outside the IA5/ASCII
repertoire; an all-ASCII string qualifier is encoded as an IA5String CPS-URI
under the id-qt-cps OID. -/
theorem certPolicies_ia5_error_iff (pis : List PyPolicyInformation) :
    (exceptOk (encode_certificate_policies pis) =
      !has_non_ascii_cps_qualifier pis) ∧
    (∀ s, is_ascii s = true →
      encode_qualifier (PyQualifier.str s) =
        Except.ok { policy_qualifier_id := CP_CPS_URI_OID,
                    qualifier := Qualifier.CpsUri s }) := by
  refine ⟨encode_certificate_policies_ok pis, ?_⟩
  intro s hs
  simp [encode_qualifier, ia5string_new, hs]

/-- Witness for C6: a non-ASCII CPS-URI qualifier fails, an ASCII one
succeeds. -/
theorem certPolicies_ia5_error_iff_witness :
    exceptOk (encode_certificate_policies
      [{ policy_identifier := Oid.unregistered [1, 2, 3],
         policy_qualifiers := some [PyQualifier.str ['π']] }]) = false ∧
    exceptOk (encode_certificate_policies
      [{ policy_identifier := Oid.unregistered [1, 2, 3],
         policy_qualifiers := some [PyQualifier.str ['a']] }]) = true := by
  constructor
  · exact (certPolicies_ia5_error_iff
      [{ policy_identifier := Oid.unregistered [1, 2, 3],
         policy_qualifiers := some [PyQualifier.str ['π']] }]).1.trans
      (by decide)
  · exact (certPolicies_ia5_error_iff
      [{ policy_identifier := Oid.unregistered [1, 2, 3],
         policy_qualifiers := some [PyQualifier.str ['a']] }]).1.trans
      (by decide)

/-- C2: an OID outside the dispatcher's fixed table yields `Ok(None)` (the
"no encoding" signal, not an error) for every extension value, and an OID
inside the table never returns `Ok(None)`. -/
theorem dispatcher_unknown_oid (oid : Oid) (ext : ExtnValue) :
    (oid ∉ dispatch_table → encode_extension oid ext = Except.ok none) ∧
    (oid ∈ dispatch_table → encode_extension oid ext ≠ Except.ok none) := by
  constructor
  · intro hmem
    cases oid <;> first | rfl | exact absurd (by decide) hmem
  · intro hmem hE
    cases oid <;> simp only [encode_extension] at hE <;>
      first
        | exact except_map_some_ne_ok_none _ hE
        | simp [dispatch_table] at hmem

/-- Witness for C2: a concrete unregistered OID gets the "no encoding"
signal. -/
theorem dispatcher_unknown_oid_witness :
    encode_extension (Oid.unregistered [9, 9, 9]) ExtnValue.otherObj =
      Except.ok none :=
  (dispatcher_unknown_oid (Oid.unregistered [9, 9, 9]) ExtnValue.otherObj).1
    (by decide)

/-- C7: the OID pairs that share a dispatcher arm encode identically for
every extension value — freshest_crl with crl_distribution_points,
extended_key_usage with acceptable_responses, crl_number with
delta_crl_indicator — and precert_poison and ocsp_no_check both write the
unit value, a DER NULL with zero-length content. -/
theorem dispatcher_shared_encoders (ext : ExtnValue) :
    encode_extension Oid.freshest_crl ext =
      encode_extension Oid.crl_distribution_points ext ∧
    encode_extension Oid.extended_key_usage ext =
      encode_extension Oid.acceptable_responses ext ∧
    encode_extension Oid.crl_number ext =
      encode_extension Oid.delta_crl_indicator ext ∧
    encode_extension Oid.precert_poison ext =
      Except.ok (some Asn1Value.null) ∧
    encode_extension Oid.ocsp_no_check ext =
      Except.ok (some Asn1Value.null) :=
  ⟨rfl, rfl, rfl, rfl, rfl⟩

end X509Ext
